import Mathlib

/-!
Verification of the progress-instrumentation layer of run-gui.py.

The embedding models the program at two granularities:

* Function slots of the diffeomorphic module (DiffeoImage and DiffeoImageDir
  attributes) are modelled by the inductive FuncRef, where the wrap
  constructor stands for a ProgressUpdater instance wrapping an inner
  function (functools.update_wrapper records the inner function, and
  inspect.unwrap follows that chain back to the innermost function).
  installInstrumentors and uninstallInstrumentors are the Run-handler
  install block (lines 186 to 222) and the finally block restore
  (lines 252 to 257) of run-gui.py.

* The ProgressUpdater class itself (lines 10 to 91) is embedded as a
  structure whose call function threads the shared GUI state
  (class attribute current_progress plus the window) explicitly and
  additionally returns a trace of the observable effects, in order.
  The wrapped stage function is a value of type alpha to Except eps beta;
  an exception raised by the stage is the error case. The Python attribute
  file_count, which is assigned only on instances constructed with
  runs_each_file true, is an Option Nat; reading it when it is absent is
  the attributeError outcome, exactly as in Python.

* The Run event of the GUI loop (lines 146 to 259) is runHandler: the
  precondition checks, the try/except/else around run_diffeomorph and the
  unconditional finally teardown. The pipeline run_diffeomorph lives in a
  separate module and is opaque here: its outcome (normal return or
  FileNotFoundError) is a parameter, and the progress and window effects of
  its internal calls to the instrumented stages are an arbitrary function
  on that part of the state. PySimpleGUI window updates are modelled on the
  keys the layout declares; an update addressed to a key that is not in
  the layout (the literal string -OUTPUTS- at line 237, while the layout
  key is -OUTPUT-) reaches no layout field, which models the PySimpleGUI
  behavior of resolving an unknown key to an error element whose update
  changes no real widget.
-/

namespace RunGui

/-- Reference to a Python function object. The five base constructors are the
pristine (never reassigned) functions of the diffeomorphic module that
run-gui.py mentions; wrap inner is a ProgressUpdater instance whose
recorded wrapped function is inner. -/
inductive FuncRef where
  | dImageInit
  | dImageGetdiffeo
  | dImageInterpolate
  | dImageDirSave
  | dImageDirInit
  | wrap (inner : FuncRef)
  deriving DecidableEq

/-- inspect.unwrap: follow the chain of recorded wrapped functions (set by
functools.update_wrapper in ProgressUpdater init, line 45) to the
innermost function. -/
def unwrap : FuncRef → FuncRef
  | FuncRef.wrap f => unwrap f
  | f => f

/-- Whether a function reference is a ProgressUpdater wrapper. -/
def FuncRef.isWrapped : FuncRef → Bool
  | FuncRef.wrap _ => true
  | _ => false

/-- The mutable function slots of the diffeomorphic module that run-gui.py
reads or assigns. dImageDir_init is never assigned by run-gui.py but is
read at line 252. -/
structure DiffeoModule where
  dImage_init : FuncRef
  dImage_getdiffeo : FuncRef
  dImage_interpolate : FuncRef
  dImageDir_save : FuncRef
  dImageDir_init : FuncRef
  deriving DecidableEq

/-- The module as imported, before any run: every slot holds its own
pristine function. -/
def pristineModule : DiffeoModule :=
  { dImage_init := FuncRef.dImageInit
    dImage_getdiffeo := FuncRef.dImageGetdiffeo
    dImage_interpolate := FuncRef.dImageInterpolate
    dImageDir_save := FuncRef.dImageDirSave
    dImageDir_init := FuncRef.dImageDirInit }

/-- Lines 186 to 222: each of the four stage slots is reassigned to a fresh
ProgressUpdater wrapping the current value of that same slot. -/
def installInstrumentors (m : DiffeoModule) : DiffeoModule :=
  { m with
    dImage_init := FuncRef.wrap m.dImage_init
    dImage_getdiffeo := FuncRef.wrap m.dImage_getdiffeo
    dImage_interpolate := FuncRef.wrap m.dImage_interpolate
    dImageDir_save := FuncRef.wrap m.dImageDir_save }

/-- Lines 252 to 257 (the finally block restore). Line 252 assigns
unwrap of DiffeoImageDir init, not of DiffeoImage init, to the
DiffeoImage init slot; the other three slots unwrap their own value. -/
def uninstallInstrumentors (m : DiffeoModule) : DiffeoModule :=
  { m with
    dImage_init := unwrap m.dImageDir_init
    dImage_getdiffeo := unwrap m.dImage_getdiffeo
    dImage_interpolate := unwrap m.dImage_interpolate
    dImageDir_save := unwrap m.dImageDir_save }

/-- True when some slot of the module still holds a wrapper. -/
def DiffeoModule.anyWrapped (m : DiffeoModule) : Bool :=
  m.dImage_init.isWrapped || m.dImage_getdiffeo.isWrapped ||
    m.dImage_interpolate.isWrapped || m.dImageDir_save.isWrapped ||
    m.dImageDir_init.isWrapped

/-- The layout fields of the PySimpleGUI window that run-gui.py updates:
the progress bar (key -PBAR-, a count and a visibility flag), its label
(key -PBARLABEL-), the error line (key -ERROR-) and the two path input
fields (keys -INPUTS- and -OUTPUT-). -/
structure Window where
  pbar_count : Nat
  pbar_visible : Bool
  pbarlabel : String
  pbarlabel_visible : Bool
  error_msg : String
  inputs_field : String
  output_field : String
  deriving DecidableEq

/-- window[key].update(current_count=count): only the key -PBAR- denotes a
progress bar; any other key reaches no layout field. -/
def Window.updateCount (w : Window) (key : String) (count : Nat) : Window :=
  if key = "-PBAR-" then { w with pbar_count := count } else w

/-- window[key].update(current_count=count, visible=vis). -/
def Window.updateCountVisible (w : Window) (key : String) (count : Nat)
    (vis : Bool) : Window :=
  if key = "-PBAR-" then { w with pbar_count := count, pbar_visible := vis }
  else w

/-- window[key].update(value=v) on a text element. An update addressed to a
key outside the layout (such as -OUTPUTS-) changes no field: PySimpleGUI
resolves an unknown key to an error element whose update touches no real
widget. -/
def Window.updateValue (w : Window) (key v : String) : Window :=
  if key = "-PBARLABEL-" then { w with pbarlabel := v }
  else if key = "-ERROR-" then { w with error_msg := v }
  else if key = "-INPUTS-" then { w with inputs_field := v }
  else if key = "-OUTPUT-" then { w with output_field := v }
  else w

/-- window[key].update(value=v, visible=vis) on a text element. -/
def Window.updateValueVisible (w : Window) (key v : String) (vis : Bool) :
    Window :=
  if key = "-PBARLABEL-" then { w with pbarlabel := v, pbarlabel_visible := vis }
  else w

/-- window[key].update(visible=vis). -/
def Window.updateVisible (w : Window) (key : String) (vis : Bool) : Window :=
  if key = "-PBARLABEL-" then { w with pbarlabel_visible := vis }
  else if key = "-PBAR-" then { w with pbar_visible := vis }
  else w

/-- The state a ProgressUpdater call reads and writes: the class attribute
current_progress (line 25, shared by all instances) and the window. -/
structure GuiState where
  current_progress : Nat
  window : Window
  deriving DecidableEq

/-- Observable effects of one ProgressUpdater call, in program order. -/
inductive CallEvent (α : Type) where
  | advance (inc : Nat)
  | pbarUpdate (key : String) (count : Nat)
  | labelUpdate (key : String) (lab : String)
  | refresh
  | printArgs (a : α)
  | delegate (a : α)
  deriving DecidableEq

/-- Outcome of a call that did not return normally: an AttributeError from
reading an unassigned file_count attribute, or the exception raised by the
wrapped stage function. -/
inductive CallError (ε : Type) where
  | attributeError
  | funcError (e : ε)
  deriving DecidableEq

/-- Embed the outcome of the wrapped stage function into the call outcome:
a normal return is returned unchanged and an exception is forwarded
unchanged (wrapped only by the funcError tag that records its origin). -/
def liftResult : Except ε β → Except (CallError ε) β
  | Except.ok b => Except.ok b
  | Except.error e => Except.error (CallError.funcError e)

/-- The ProgressUpdater instance (lines 34 to 60). The stored window
reference is not a field here because the window is threaded through call
as part of GuiState. file_count is Option Nat because the Python attribute
exists only on instances constructed with runs_each_file true. -/
structure ProgressUpdater (α ε β : Type) where
  func : α → Except ε β
  pbar_key : String
  label_key : String
  label : String
  runs_each_file : Bool
  increment_value : Nat
  file_count : Option Nat

/-- ProgressUpdater init (lines 34 to 60), with the parameters in source
order except the stored window. When runs_each_file is false the method
returns early with increment_value equal to stage_progress and no
file_count attribute; otherwise file_count starts at 1 and
increment_value is the floor of stage_progress divided by num_files.
The Python expression floor(stage_progress / num_files) divides in double
precision; for the magnitudes the program uses (stage_progress at most
100) that floor equals the exact integer floor division used here. -/
def ProgressUpdater.init (func : α → Except ε β) (pbar_key label_key : String)
    (stage_progress num_files : Nat) (label : String)
    (runs_each_file : Bool) : ProgressUpdater α ε β :=
  if !runs_each_file then
    { func := func, pbar_key := pbar_key, label_key := label_key
      label := label, runs_each_file := false
      increment_value := stage_progress, file_count := none }
  else
    { func := func, pbar_key := pbar_key, label_key := label_key
      label := label, runs_each_file := true
      increment_value := stage_progress / num_files, file_count := some 1 }

/-- Result of one ProgressUpdater call: the instance afterwards (file_count
may have advanced), the GUI state afterwards, the trace of effects, and
the outcome. -/
structure CallResult (α ε β : Type) where
  updater : ProgressUpdater α ε β
  state : GuiState
  events : List (CallEvent α)
  result : Except (CallError ε) β

/-- ProgressUpdater call (lines 62 to 88): add increment_value to the
class attribute current_progress, push the new count to the progress bar,
compute the label (per-item instances read and then advance file_count;
reading it when absent raises AttributeError after the progress update
already happened), push the label, refresh the window, print the
arguments, and finally delegate to the wrapped function with the original
argument unchanged. -/
def ProgressUpdater.call (pu : ProgressUpdater α ε β) (s : GuiState) (a : α) :
    CallResult α ε β :=
  let cp := s.current_progress + pu.increment_value
  let w1 := s.window.updateCount pu.pbar_key cp
  if pu.runs_each_file then
    match pu.file_count with
    | none =>
      { updater := pu
        state := { current_progress := cp, window := w1 }
        events := [CallEvent.advance pu.increment_value,
                   CallEvent.pbarUpdate pu.pbar_key cp]
        result := Except.error CallError.attributeError }
    | some c =>
      let el := "File #" ++ toString c ++ ": " ++ pu.label
      { updater := { pu with file_count := some (c + 1) }
        state := { current_progress := cp
                   window := w1.updateValue pu.label_key el }
        events := [CallEvent.advance pu.increment_value,
                   CallEvent.pbarUpdate pu.pbar_key cp,
                   CallEvent.labelUpdate pu.label_key el, CallEvent.refresh,
                   CallEvent.printArgs a, CallEvent.delegate a]
        result := liftResult (pu.func a) }
  else
    { updater := pu
      state := { current_progress := cp
                 window := w1.updateValue pu.label_key pu.label }
      events := [CallEvent.advance pu.increment_value,
                 CallEvent.pbarUpdate pu.pbar_key cp,
                 CallEvent.labelUpdate pu.label_key pu.label, CallEvent.refresh,
                 CallEvent.printArgs a, CallEvent.delegate a]
      result := liftResult (pu.func a) }

/-- The label a call pushes to the window, read off the instance: per-item
instances show the file ordinal before the stage label (line 76), and the
default 1 of getD is never used on an instance whose file_count exists. -/
def ProgressUpdater.displayLabel (pu : ProgressUpdater α ε β) : String :=
  if pu.runs_each_file then
    "File #" ++ toString (pu.file_count.getD 1) ++ ": " ++ pu.label
  else pu.label

/-- The labels pushed to the window during a trace of call events. -/
def displayedLabels (evs : List (CallEvent α)) : List String :=
  evs.filterMap fun e =>
    match e with
    | CallEvent.labelUpdate _ l => some l
    | _ => none

/-- Iterate call over a list of arguments (one invocation per pipeline
item), collecting the labels displayed along the way. -/
def runCalls : ProgressUpdater α ε β → GuiState → List α →
    ProgressUpdater α ε β × GuiState × List String
  | pu, s, [] => (pu, s, [])
  | pu, s, a :: rest =>
    let r := ProgressUpdater.call pu s a
    let k := runCalls r.updater r.state rest
    (k.1, k.2.1, displayedLabels r.events ++ k.2.2)

/-- The label sequence File #c, File #(c+1), ... of length k, starting at
ordinal c. With c = 1 this is the sequence 1, 2, ..., k of file ordinals. -/
def expectedLabels (label : String) : Nat → Nat → List String
  | _, 0 => []
  | c, k + 1 =>
    ("File #" ++ toString c ++ ": " ++ label) :: expectedLabels label (c + 1) k

/-- Events of one Run handler pass that the claims count or exclude:
the synchronous invocation of run_diffeomorph (line 227), the sleep(2)
of the success path (line 243), and the call to ProgressUpdater.reset
(line 259). -/
inductive RunEvent where
  | pipelineInvoked
  | sleepHold (secs : Nat)
  | resetCalled
  deriving DecidableEq

/-- How the opaque run_diffeomorph invocation ended: a normal return, or a
FileNotFoundError caught at line 235. -/
inductive RunOutcome where
  | success
  | fileNotFound
  deriving DecidableEq

/-- The whole state the Run handler touches: the window, the function slots
of the diffeomorphic module, and the shared progress counter. -/
structure AppState where
  window : Window
  module : DiffeoModule
  current_progress : Nat
  deriving DecidableEq

/-- Line 152: error text when both fields are empty. -/
def errBothMsg : String :=
  "ERROR: One or more files/folders must be supplied as an input; exactly one folder must be supplied as an output"

/-- Line 159: error text when the inputs field is empty. -/
def errInputMsg : String :=
  "ERROR: One or more files/folders must be supplied as an input"

/-- Line 165: error text when the output field is empty. -/
def errOutputMsg : String :=
  "ERROR: Exactly one folder must be supplied as an output"

/-- Line 238: error text of the FileNotFoundError handler. -/
def filesNotFoundMsg : String := "ERROR: One or more files not found"

/-- Line 241: label shown on the success path. -/
def completeMsg : String := "Diffeomorphing complete!"

/-- Which of the three precondition error texts lines 150 to 168 select,
given the two field values. -/
def precondMsg (inp out : String) : String :=
  if inp = "" ∧ out = "" then errBothMsg
  else if inp = "" then errInputMsg
  else errOutputMsg

/-- Lines 171 to 174, run before the pipeline: clear the error line, show
the progress bar at count 0, show the bar label. -/
def preRunWindow (w : Window) : Window :=
  ((w.updateValue "-ERROR-" "").updateCountVisible "-PBAR-" 0 true).updateVisible
    "-PBARLABEL-" true

/-- Lines 239 to 243 (the else branch): push count 100 to the progress bar,
set the completion label, refresh, hold two seconds. The class attribute
current_progress is not assigned here. -/
def successBranch (s : AppState) : AppState × List RunEvent :=
  ({ s with
     window := (s.window.updateCount "-PBAR-" 100).updateValue "-PBARLABEL-"
       completeMsg },
   [RunEvent.sleepHold 2])

/-- Lines 235 to 238 (the except FileNotFoundError branch): clear the
inputs field, update the key -OUTPUTS- (which is outside the layout, so no
field changes), and set the files-not-found error text. -/
def fileNotFoundBranch (s : AppState) : AppState :=
  { s with
    window := ((s.window.updateValue "-INPUTS-" "").updateValue "-OUTPUTS-"
      "").updateValue "-ERROR-" filesNotFoundMsg }

/-- Lines 244 to 259 (the finally block): hide and zero the progress bar,
blank and hide its label, restore the four slots (uninstallInstrumentors),
and reset the class attribute current_progress to 0. -/
def teardown (s : AppState) : AppState × List RunEvent :=
  ({ s with
     window := ((s.window.updateCountVisible "-PBAR-" 0
       false).updateValueVisible "-PBARLABEL-" "" false)
     module := uninstallInstrumentors s.module
     current_progress := 0 },
   [RunEvent.resetCalled])

/-- Lines 171 to 243 of a run that passed validation, stopping just before
the finally block: prepare the window, install the four instrumentors,
invoke run_diffeomorph (whose calls into the instrumented stages change
the progress counter and the window by the opaque function effect), then
take the except branch or the else branch according to the outcome. -/
def validRunPreTeardown (s : AppState) (o : RunOutcome)
    (effect : Nat × Window → Nat × Window) : AppState × List RunEvent :=
  let w0 := preRunWindow s.window
  let m1 := installInstrumentors s.module
  let p := effect (s.current_progress, w0)
  match o with
  | RunOutcome.fileNotFound =>
    (fileNotFoundBranch ⟨p.2, m1, p.1⟩, [RunEvent.pipelineInvoked])
  | RunOutcome.success =>
    let r := successBranch ⟨p.2, m1, p.1⟩
    (r.1, RunEvent.pipelineInvoked :: r.2)

/-- The Run event handler (lines 146 to 259). The three precondition checks
on the inputs and output fields come first and end the pass with only the
error line updated (the continue statements); otherwise the run executes
and the finally block always follows. -/
def runHandler (s : AppState) (o : RunOutcome)
    (effect : Nat × Window → Nat × Window) : AppState × List RunEvent :=
  if s.window.inputs_field = "" ∧ s.window.output_field = "" then
    ({ s with window := s.window.updateValue "-ERROR-" errBothMsg }, [])
  else if s.window.inputs_field = "" then
    ({ s with window := s.window.updateValue "-ERROR-" errInputMsg }, [])
  else if s.window.output_field = "" then
    ({ s with window := s.window.updateValue "-ERROR-" errOutputMsg }, [])
  else
    let p := validRunPreTeardown s o effect
    let t := teardown p.1
    (t.1, p.2 ++ t.2)

/-- A window with both path fields filled, as after the user picked two
input files and an output folder. -/
def exampleWindow : Window :=
  { pbar_count := 0, pbar_visible := false, pbarlabel := ""
    pbarlabel_visible := false, error_msg := ""
    inputs_field := "a.png;b.png", output_field := "/out" }

/-- App state at the start of a first run: pristine module, counter 0. -/
def s0 : AppState :=
  { window := exampleWindow, module := pristineModule, current_progress := 0 }

/-- A pipeline effect that leaves the counter at 97, the value the stage
increments reach for two input items with weights 5, 25, 65 per item and
5 for the batch save stage. -/
def effect97 : Nat × Window → Nat × Window := fun p => (97, p.2)

/-- A pipeline effect that changes nothing. -/
def effectId : Nat × Window → Nat × Window := fun p => p

/-- A window whose inputs field is empty (no files picked). -/
def emptyInputsWindow : Window :=
  { exampleWindow with inputs_field := "" }

/-- App state for a run request with no inputs selected. -/
def sEmpty : AppState :=
  { window := emptyInputsWindow, module := pristineModule
    current_progress := 0 }

/-- Every call adds exactly increment_value to the shared counter, on all
three paths of the call body. -/
theorem call_advances (pu : ProgressUpdater α ε β) (s : GuiState) (a : α) :
    (pu.call s a).state.current_progress
      = s.current_progress + pu.increment_value := by
  unfold ProgressUpdater.call
  cases hrf : pu.runs_each_file
  · simp [hrf]
  · cases hfc : pu.file_count <;> simp [hrf, hfc]

/-- A call never changes increment_value, label or mode of the instance. -/
theorem call_keeps_fields (pu : ProgressUpdater α ε β) (s : GuiState)
    (a : α) :
    (pu.call s a).updater.increment_value = pu.increment_value
    ∧ (pu.call s a).updater.label = pu.label
    ∧ (pu.call s a).updater.runs_each_file = pu.runs_each_file := by
  unfold ProgressUpdater.call
  cases hrf : pu.runs_each_file
  · simp [hrf]
  · cases hfc : pu.file_count <;> simp [hrf, hfc]

/-- Iterating call over a list of arguments adds increment_value once per
argument to the shared counter. -/
theorem runCalls_progress (as : List α) :
    ∀ (pu : ProgressUpdater α ε β) (s : GuiState),
      (runCalls pu s as).2.1.current_progress
        = s.current_progress + pu.increment_value * as.length := by
  induction as with
  | nil => intro pu s; simp [runCalls]
  | cons a rest ih =>
    intro pu s
    have h1 := ih (pu.call s a).updater (pu.call s a).state
    have h2 := call_advances pu s a
    have h3 := (call_keeps_fields pu s a).1
    simp only [runCalls, List.length_cons]
    rw [h1, h2, h3, Nat.mul_succ]
    ring

/-- Claim C1. Round-trip restore fails in the code: after one install of
the four stage instrumentors followed by the unconditional teardown, the
DiffeoImage init slot holds DiffeoImageDir init (teardown reads the wrong
attribute at line 252) instead of the DiffeoImage init function it held
before the install, while the other three slots are restored exactly; a
second install plus teardown still leaves no wrapper in any slot, so no
double wrapping ever arises. -/
theorem c1_init_slot_not_restored :
    (uninstallInstrumentors (installInstrumentors pristineModule)).dImage_init
      = FuncRef.dImageDirInit
    ∧ (uninstallInstrumentors
        (installInstrumentors pristineModule)).dImage_init
      ≠ pristineModule.dImage_init
    ∧ (uninstallInstrumentors
        (installInstrumentors pristineModule)).dImage_getdiffeo
      = pristineModule.dImage_getdiffeo
    ∧ (uninstallInstrumentors
        (installInstrumentors pristineModule)).dImage_interpolate
      = pristineModule.dImage_interpolate
    ∧ (uninstallInstrumentors
        (installInstrumentors pristineModule)).dImageDir_save
      = pristineModule.dImageDir_save
    ∧ (uninstallInstrumentors (installInstrumentors
        (uninstallInstrumentors
          (installInstrumentors pristineModule)))).anyWrapped = false := by
  decide

/-- Claim C5. Increment resolution: an instrumentor constructed per-item
has increment_value equal to the floor of weight over N, one constructed
per-batch has increment_value equal to the weight, and every invocation of
any instrumentor advances the shared counter by exactly its
increment_value. -/
theorem c5_increment_resolution (f : α → Except ε β) (pbk lk lab : String)
    (w N : Nat) (hN : 1 ≤ N) :
    (ProgressUpdater.init f pbk lk w N lab true).increment_value = w / N
    ∧ (ProgressUpdater.init f pbk lk w N lab false).increment_value = w
    ∧ ∀ (pu : ProgressUpdater α ε β) (s : GuiState) (a : α),
        (pu.call s a).state.current_progress
          = s.current_progress + pu.increment_value := by
  refine ⟨by simp [ProgressUpdater.init], by simp [ProgressUpdater.init],
    fun pu s a => call_advances pu s a⟩

/-- Witness for claim C5 at weight 25 and N = 2 items. -/
theorem c5_witness :
    (ProgressUpdater.init (fun n => Except.ok (n + 1) : Nat → Except Unit Nat)
      "-PBAR-" "-PBARLABEL-" 25 2 "Generating diffeomorphic flow field..."
      true).increment_value = 25 / 2
    ∧ (ProgressUpdater.init
        (fun n => Except.ok (n + 1) : Nat → Except Unit Nat)
        "-PBAR-" "-PBARLABEL-" 25 2 "Generating diffeomorphic flow field..."
        false).increment_value = 25
    ∧ ((ProgressUpdater.init
        (fun n => Except.ok (n + 1) : Nat → Except Unit Nat)
        "-PBAR-" "-PBARLABEL-" 25 2 "Generating diffeomorphic flow field..."
        true).call { current_progress := 0, window := exampleWindow }
          3).state.current_progress
      = (0 : Nat) + (ProgressUpdater.init
          (fun n => Except.ok (n + 1) : Nat → Except Unit Nat)
          "-PBAR-" "-PBARLABEL-" 25 2
          "Generating diffeomorphic flow field..." true).increment_value := by
  refine ⟨(c5_increment_resolution _ _ _ _ 25 2 (by decide)).1,
    (c5_increment_resolution _ _ _ _ 25 2 (by decide)).2.1, ?_⟩
  exact (c5_increment_resolution
    (fun n => Except.ok (n + 1) : Nat → Except Unit Nat)
    "-PBAR-" "-PBARLABEL-" "Generating diffeomorphic flow field..."
    25 2 (by decide)).2.2 _ { current_progress := 0, window := exampleWindow } 3

/-- Claim C6. Bounded accumulation: for a per-item stage of weight w over N
items, the per-run total contribution is the increment times the number of
invocations; over N invocations it is (w / N) * N, which never exceeds w
and equals w exactly when N divides w. -/
theorem c6_bounded_accumulation (f : α → Except ε β) (pbk lk lab : String)
    (w N : Nat) (hw : w ≤ 100) (hN : 1 ≤ N) :
    (ProgressUpdater.init f pbk lk w N lab true).increment_value * N ≤ w
    ∧ ((ProgressUpdater.init f pbk lk w N lab true).increment_value * N = w
        ↔ N ∣ w)
    ∧ ∀ (s : GuiState) (as : List α),
        (runCalls (ProgressUpdater.init f pbk lk w N lab true) s as).2.1.current_progress
          = s.current_progress + (w / N) * as.length := by
  have hinc : (ProgressUpdater.init f pbk lk w N lab true).increment_value
      = w / N := by simp [ProgressUpdater.init]
  refine ⟨?_, ⟨?_, ?_⟩, ?_⟩
  · rw [hinc]; exact Nat.div_mul_le_self w N
  · intro h
    rw [hinc] at h
    exact h ▸ dvd_mul_left N (w / N)
  · intro h
    rw [hinc]
    exact Nat.div_mul_cancel h
  · intro s as
    rw [runCalls_progress as _ s, hinc]

/-- Witness for claim C6 at weight 65 and N = 2 items: the total over the
two per-item invocations is 64, strictly below the weight 65 because 2
does not divide 65. -/
theorem c6_witness :
    (ProgressUpdater.init (fun n => Except.ok (n + 1) : Nat → Except Unit Nat)
      "-PBAR-" "-PBARLABEL-" 65 2 "Interpolating image..."
      true).increment_value * 2 ≤ 65
    ∧ ((ProgressUpdater.init
        (fun n => Except.ok (n + 1) : Nat → Except Unit Nat)
        "-PBAR-" "-PBARLABEL-" 65 2 "Interpolating image..."
        true).increment_value * 2 = 65 ↔ (2 : Nat) ∣ 65)
    ∧ (runCalls (ProgressUpdater.init
        (fun n => Except.ok (n + 1) : Nat → Except Unit Nat)
        "-PBAR-" "-PBARLABEL-" 65 2 "Interpolating image..." true)
        { current_progress := 0, window := exampleWindow }
        [3, 4]).2.1.current_progress = (0 : Nat) + 65 / 2 * 2 := by
  have h := c6_bounded_accumulation
    (fun n => Except.ok (n + 1) : Nat → Except Unit Nat)
    "-PBAR-" "-PBARLABEL-" "Interpolating image..." 65 2
    (by decide) (by decide)
  refine ⟨h.1, h.2.1, ?_⟩
  have h3 := h.2.2 { current_progress := 0, window := exampleWindow } [3, 4]
  simpa using h3

/-- Labels collected while iterating a per-item instrumentor whose counter
currently stands at c: the ordinals run c, c+1, ... for as many calls as
there are arguments. -/
theorem runCalls_labels_item (lab : String) (as : List α) :
    ∀ (pu : ProgressUpdater α ε β) (s : GuiState) (c : Nat),
      pu.runs_each_file = true → pu.file_count = some c → pu.label = lab →
      (runCalls pu s as).2.2 = expectedLabels lab c as.length := by
  induction as with
  | nil => intro pu s c h1 h2 h3; simp [runCalls, expectedLabels]
  | cons a rest ih =>
    intro pu s c h1 h2 h3
    have hcall : pu.call s a
        = { updater := { pu with file_count := some (c + 1) }
            state := { current_progress :=
                         s.current_progress + pu.increment_value
                       window := (s.window.updateCount pu.pbar_key
                         (s.current_progress +
                           pu.increment_value)).updateValue pu.label_key
                         ("File #" ++ toString c ++ ": " ++ pu.label) }
            events := [CallEvent.advance pu.increment_value,
                       CallEvent.pbarUpdate pu.pbar_key
                         (s.current_progress + pu.increment_value),
                       CallEvent.labelUpdate pu.label_key
                         ("File #" ++ toString c ++ ": " ++ pu.label),
                       CallEvent.refresh, CallEvent.printArgs a,
                       CallEvent.delegate a]
            result := liftResult (pu.func a) } := by
      unfold ProgressUpdater.call
      simp [h1, h2]
    have htail := ih { pu with file_count := some (c + 1) }
      (pu.call s a).state (c + 1) (by simp [h1]) (by simp) (by simp [h3])
    simp only [runCalls, List.length_cons, expectedLabels]
    rw [hcall]
    simp only [displayedLabels, List.filterMap]
    rw [hcall] at htail
    simp only [h3]
    simpa [displayedLabels, h3] using htail

/-- Labels collected while iterating a per-batch instrumentor: the stage
label verbatim, once per call, with no ordinal. -/
theorem runCalls_labels_batch (lab : String) (bs : List α) :
    ∀ (pu : ProgressUpdater α ε β) (s : GuiState),
      pu.runs_each_file = false → pu.label = lab →
      (runCalls pu s bs).2.2 = List.replicate bs.length lab := by
  induction bs with
  | nil => intro pu s h1 h2; simp [runCalls]
  | cons a rest ih =>
    intro pu s h1 h2
    have hcall : pu.call s a
        = { updater := pu
            state := { current_progress :=
                         s.current_progress + pu.increment_value
                       window := (s.window.updateCount pu.pbar_key
                         (s.current_progress +
                           pu.increment_value)).updateValue pu.label_key
                         pu.label }
            events := [CallEvent.advance pu.increment_value,
                       CallEvent.pbarUpdate pu.pbar_key
                         (s.current_progress + pu.increment_value),
                       CallEvent.labelUpdate pu.label_key pu.label,
                       CallEvent.refresh, CallEvent.printArgs a,
                       CallEvent.delegate a]
            result := liftResult (pu.func a) } := by
      unfold ProgressUpdater.call
      simp [h1]
    have htail := ih pu (pu.call s a).state h1 h2
    simp only [runCalls, List.length_cons, List.replicate]
    rw [hcall]
    rw [hcall] at htail
    simp only [h2]
    simpa [displayedLabels, h2] using htail

/-- Claim C7. Label ordinal correctness: a freshly constructed per-item
instrumentor invoked k times displays the labels File #1 through File #k
prefixed to its stage label, and since each run constructs a fresh
instrumentor whose counter starts at 1, the ordinals restart at 1 on the
next run; a freshly constructed per-batch instrumentor displays its stage
label verbatim on every invocation. -/
theorem c7_label_ordinals (f g : α → Except ε β) (pbk lk labI labB : String)
    (w v N : Nat) (s t : GuiState) (as bs : List α) :
    (ProgressUpdater.init f pbk lk w N labI true).file_count = some 1
    ∧ (runCalls (ProgressUpdater.init f pbk lk w N labI true) s as).2.2
      = expectedLabels labI 1 as.length
    ∧ (runCalls (ProgressUpdater.init g pbk lk v N labB false) t bs).2.2
      = List.replicate bs.length labB := by
  refine ⟨by simp [ProgressUpdater.init], ?_, ?_⟩
  · exact runCalls_labels_item labI as _ s 1 (by simp [ProgressUpdater.init])
      (by simp [ProgressUpdater.init]) (by simp [ProgressUpdater.init])
  · exact runCalls_labels_batch labB bs _ t
      (by simp [ProgressUpdater.init]) (by simp [ProgressUpdater.init])

/-- Claim C8. Instrumentor transparency: on an instance whose file_count
attribute exists whenever its mode needs it (every instance the program
constructs), a call first advances the counter, pushes it to the bar,
pushes the display label, refreshes, prints the arguments, and only then
delegates to the wrapped function with the original argument; the outcome
is exactly the wrapped function outcome at that argument, embedded by
liftResult, which returns a normal result unchanged and forwards an
exception unchanged. -/
theorem c8_transparency (pu : ProgressUpdater α ε β) (s : GuiState) (a : α)
    (h : pu.runs_each_file = true → pu.file_count.isSome = true) :
    (pu.call s a).events
      = [CallEvent.advance pu.increment_value,
         CallEvent.pbarUpdate pu.pbar_key
           (s.current_progress + pu.increment_value),
         CallEvent.labelUpdate pu.label_key pu.displayLabel,
         CallEvent.refresh, CallEvent.printArgs a, CallEvent.delegate a]
    ∧ (pu.call s a).result = liftResult (pu.func a)
    ∧ (pu.call s a).state.current_progress
      = s.current_progress + pu.increment_value := by
  refine ⟨?_, ?_, call_advances pu s a⟩
  · unfold ProgressUpdater.call ProgressUpdater.displayLabel
    cases hrf : pu.runs_each_file
    · simp [hrf]
    · have hs := h hrf
      cases hfc : pu.file_count
      · rw [hfc] at hs; simp at hs
      · simp [hrf, hfc]
  · unfold ProgressUpdater.call
    cases hrf : pu.runs_each_file
    · simp [hrf]
    · have hs := h hrf
      cases hfc : pu.file_count
      · rw [hfc] at hs; simp at hs
      · simp [hrf, hfc]

/-- Concrete per-batch instrumentor for witnesses: the save stage wrapper
with weight 5 for 2 files. -/
def saveUpdater : ProgressUpdater Nat Unit Nat :=
  ProgressUpdater.init (fun n => Except.ok (n + 1)) "-PBAR-" "-PBARLABEL-"
    5 2 "Saving files (do not close window!)..." false

/-- Concrete GUI state for witnesses. -/
def sampleGui : GuiState :=
  { current_progress := 0, window := exampleWindow }

/-- Witness for claim C8 on the concrete per-batch save instrumentor. -/
theorem c8_witness :
    (saveUpdater.call sampleGui 7).events
      = [CallEvent.advance saveUpdater.increment_value,
         CallEvent.pbarUpdate saveUpdater.pbar_key
           (sampleGui.current_progress + saveUpdater.increment_value),
         CallEvent.labelUpdate saveUpdater.label_key saveUpdater.displayLabel,
         CallEvent.refresh, CallEvent.printArgs 7, CallEvent.delegate 7]
    ∧ (saveUpdater.call sampleGui 7).result
      = liftResult (saveUpdater.func 7)
    ∧ (saveUpdater.call sampleGui 7).state.current_progress
      = sampleGui.current_progress + saveUpdater.increment_value :=
  c8_transparency saveUpdater sampleGui 7 (by decide)

/-- Claim C10. file_count attribute safety: an instrumentor constructed
per-batch has no file_count attribute, yet its call never fails with an
AttributeError because the branch reading file_count is guarded by the
runs_each_file flag; an instrumentor constructed per-item has file_count
assigned (to 1) during construction, and on any instance whose
runs_each_file flag is true and whose file_count exists, a call neither
fails with an AttributeError nor removes the attribute. -/
theorem c10_file_count_safety (f : α → Except ε β) (pbk lk lab : String)
    (w N : Nat) (s : GuiState) (a : α) (pu : ProgressUpdater α ε β)
    (h1 : pu.runs_each_file = true) (h2 : pu.file_count.isSome = true) :
    (ProgressUpdater.init f pbk lk w N lab false).file_count = none
    ∧ ((ProgressUpdater.init f pbk lk w N lab false).call s a).result
      ≠ Except.error CallError.attributeError
    ∧ (ProgressUpdater.init f pbk lk w N lab true).file_count = some 1
    ∧ (pu.call s a).result ≠ Except.error CallError.attributeError
    ∧ (pu.call s a).updater.file_count.isSome = true := by
  refine ⟨by simp [ProgressUpdater.init], ?_, by simp [ProgressUpdater.init],
    ?_, ?_⟩
  · unfold ProgressUpdater.call
    simp [ProgressUpdater.init]
    cases hf : f a <;> simp [liftResult]
  · unfold ProgressUpdater.call
    cases hfc : pu.file_count
    · rw [hfc] at h2; simp at h2
    · simp [h1, hfc]
      cases hf : pu.func a <;> simp [liftResult]
  · unfold ProgressUpdater.call
    cases hfc : pu.file_count
    · rw [hfc] at h2; simp at h2
    · simp [h1, hfc]

/-- Concrete per-item instrumentor for witnesses: the image init wrapper
with weight 5 for 2 files. -/
def initUpdater : ProgressUpdater Nat Unit Nat :=
  ProgressUpdater.init (fun n => Except.ok (n + 1)) "-PBAR-" "-PBARLABEL-"
    5 2 "Initializing image..." true

/-- Witness for claim C10 on the concrete save and init instrumentors. -/
theorem c10_witness :
    (ProgressUpdater.init (fun n => Except.ok (n + 1) : Nat → Except Unit Nat)
      "-PBAR-" "-PBARLABEL-" 5 2 "Saving files (do not close window!)..."
      false).file_count = none
    ∧ ((ProgressUpdater.init
        (fun n => Except.ok (n + 1) : Nat → Except Unit Nat)
        "-PBAR-" "-PBARLABEL-" 5 2 "Saving files (do not close window!)..."
        false).call sampleGui 7).result
      ≠ Except.error CallError.attributeError
    ∧ (ProgressUpdater.init
        (fun n => Except.ok (n + 1) : Nat → Except Unit Nat)
        "-PBAR-" "-PBARLABEL-" 5 2 "Saving files (do not close window!)..."
        true).file_count = some 1
    ∧ (initUpdater.call sampleGui 7).result
      ≠ Except.error CallError.attributeError
    ∧ (initUpdater.call sampleGui 7).updater.file_count.isSome = true :=
  c10_file_count_safety
    (fun n => Except.ok (n + 1) : Nat → Except Unit Nat)
    "-PBAR-" "-PBARLABEL-" "Saving files (do not close window!)..." 5 2
    sampleGui 7 initUpdater (by decide) (by decide)

/-- Claim C9. Precondition rejection: when the inputs field or the output
field is empty, the Run handler only writes the error text selected by
precondMsg to the error line and stops; the progress counter, the module
slots and everything else are untouched, no event happens, and in
particular run_diffeomorph is never invoked. -/
theorem c9_precondition_rejection (s : AppState) (o : RunOutcome)
    (eff : Nat × Window → Nat × Window)
    (h : s.window.inputs_field = "" ∨ s.window.output_field = "") :
    runHandler s o eff
      = ({ s with window := (s.window.updateValue "-ERROR-"
            (precondMsg s.window.inputs_field s.window.output_field)) }, [])
    ∧ (runHandler s o eff).1.current_progress = s.current_progress
    ∧ (runHandler s o eff).1.module = s.module
    ∧ RunEvent.pipelineInvoked ∉ (runHandler s o eff).2 := by
  have hEq : runHandler s o eff
      = ({ s with window := (s.window.updateValue "-ERROR-"
            (precondMsg s.window.inputs_field s.window.output_field)) },
         []) := by
    rcases h with hi | ho
    · by_cases hb : s.window.output_field = ""
      · simp [runHandler, precondMsg, hi, hb]
      · simp [runHandler, precondMsg, hi, hb]
    · by_cases ha : s.window.inputs_field = ""
      · simp [runHandler, precondMsg, ha, ho]
      · simp [runHandler, precondMsg, ha, ho]
  refine ⟨hEq, ?_, ?_, ?_⟩ <;> rw [hEq] <;> simp

/-- Witness for claim C9: a run request with no inputs selected. -/
theorem c9_witness :
    runHandler sEmpty RunOutcome.success effectId
      = ({ sEmpty with window := (sEmpty.window.updateValue "-ERROR-"
            (precondMsg sEmpty.window.inputs_field
              sEmpty.window.output_field)) }, [])
    ∧ (runHandler sEmpty RunOutcome.success
        effectId).1.current_progress = sEmpty.current_progress
    ∧ (runHandler sEmpty RunOutcome.success effectId).1.module
      = sEmpty.module
    ∧ RunEvent.pipelineInvoked
      ∉ (runHandler sEmpty RunOutcome.success effectId).2 :=
  c9_precondition_rejection sEmpty RunOutcome.success effectId (Or.inl rfl)

/-- Claim C4. Reset completeness: for every run that passes validation,
whatever the pipeline did to the counter and whichever way the run ended,
the state after the handler has the shared counter at exactly 0, and the
reset call happens exactly once, as the final act of the teardown. -/
theorem c4_reset_completeness (s : AppState) (o : RunOutcome)
    (eff : Nat × Window → Nat × Window)
    (h1 : s.window.inputs_field ≠ "") (h2 : s.window.output_field ≠ "") :
    (runHandler s o eff).1.current_progress = 0
    ∧ List.count RunEvent.resetCalled (runHandler s o eff).2 = 1
    ∧ (runHandler s o eff).2.getLast? = some RunEvent.resetCalled := by
  cases o <;>
    simp [runHandler, h1, h2, validRunPreTeardown, successBranch,
      fileNotFoundBranch, teardown, preRunWindow, List.count_cons]

/-- Witness for claim C4 on a concrete successful run whose pipeline left
the counter at 97. -/
theorem c4_witness :
    (runHandler s0 RunOutcome.success effect97).1.current_progress = 0
    ∧ List.count RunEvent.resetCalled
        (runHandler s0 RunOutcome.success effect97).2 = 1
    ∧ (runHandler s0 RunOutcome.success effect97).2.getLast?
      = some RunEvent.resetCalled :=
  c4_reset_completeness s0 RunOutcome.success effect97 (by decide) (by decide)

/-- Claim C2 counterexample. In the concrete successful run from s0 whose
instrumented stages left the counter at 97 (the value reached with two
input items and the weights 5, 25, 65, 5), the state just before the
finally block, which is exactly where runHandler enters teardown, still
has current_progress 97 and not 100: line 240 pushes the count 100 to the
progress bar widget but never assigns the class attribute
current_progress. -/
theorem c2_counterexample :
    (validRunPreTeardown s0 RunOutcome.success
      effect97).1.current_progress ≠ 100
    ∧ (validRunPreTeardown s0 RunOutcome.success
        effect97).1.current_progress = 97
    ∧ (validRunPreTeardown s0 RunOutcome.success
        effect97).1.window.pbar_count = 100
    ∧ runHandler s0 RunOutcome.success effect97
      = ((teardown (validRunPreTeardown s0 RunOutcome.success
          effect97).1).1,
         (validRunPreTeardown s0 RunOutcome.success effect97).2
           ++ (teardown (validRunPreTeardown s0 RunOutcome.success
             effect97).1).2) := by
  decide

/-- Claim C2 as amended. On successful run completion the handler force
sets the displayed progress bar count to 100 and shows the completion
label before teardown; the class attribute current_progress is not
assigned by the success branch (it keeps whatever value the instrumented
stages left), and teardown then resets both the attribute and the
displayed count to 0. -/
theorem c2_amended (s : AppState) (eff : Nat × Window → Nat × Window)
    (h1 : s.window.inputs_field ≠ "") (h2 : s.window.output_field ≠ "") :
    (validRunPreTeardown s RunOutcome.success eff).1.window.pbar_count = 100
    ∧ (validRunPreTeardown s RunOutcome.success eff).1.window.pbarlabel
      = completeMsg
    ∧ (validRunPreTeardown s RunOutcome.success eff).1.current_progress
      = (eff (s.current_progress, preRunWindow s.window)).1
    ∧ runHandler s RunOutcome.success eff
      = ((teardown (validRunPreTeardown s RunOutcome.success eff).1).1,
         (validRunPreTeardown s RunOutcome.success eff).2
           ++ (teardown (validRunPreTeardown s RunOutcome.success
             eff).1).2)
    ∧ (runHandler s RunOutcome.success eff).1.current_progress = 0
    ∧ (runHandler s RunOutcome.success eff).1.window.pbar_count = 0 := by
  refine ⟨?_, ?_, ?_, ?_, ?_, ?_⟩
  · simp [validRunPreTeardown, successBranch, Window.updateCount,
      Window.updateValue]
  · simp [validRunPreTeardown, successBranch, Window.updateCount,
      Window.updateValue]
  · simp [validRunPreTeardown, successBranch]
  · simp [runHandler, h1, h2]
  · simp [runHandler, h1, h2, teardown]
  · simp [runHandler, h1, h2, teardown, Window.updateCountVisible,
      Window.updateValueVisible]

/-- Witness for the amended claim C2 on the concrete run from s0. -/
theorem c2_amended_witness :
    (validRunPreTeardown s0 RunOutcome.success
      effect97).1.window.pbar_count = 100
    ∧ (validRunPreTeardown s0 RunOutcome.success
        effect97).1.window.pbarlabel = completeMsg
    ∧ (validRunPreTeardown s0 RunOutcome.success
        effect97).1.current_progress
      = (effect97 (s0.current_progress, preRunWindow s0.window)).1
    ∧ runHandler s0 RunOutcome.success effect97
      = ((teardown (validRunPreTeardown s0 RunOutcome.success
          effect97).1).1,
         (validRunPreTeardown s0 RunOutcome.success effect97).2
           ++ (teardown (validRunPreTeardown s0 RunOutcome.success
             effect97).1).2)
    ∧ (runHandler s0 RunOutcome.success effect97).1.current_progress = 0
    ∧ (runHandler s0 RunOutcome.success effect97).1.window.pbar_count = 0 :=
  c2_amended s0 effect97 (by decide) (by decide)

/-- Claim C3. On the recovered FileNotFoundError path of a concrete run
(inputs a.png and b.png selected, output folder /out), the handler clears
the inputs field and shows the files-not-found error, and the teardown
still runs (counter back to 0, no wrapper left in any slot), but the
output field still holds /out: line 237 addresses the key -OUTPUTS-,
which is not in the layout (the output field key is -OUTPUT-), so the
output field is never cleared. -/
theorem c3_output_field_not_cleared :
    (runHandler s0 RunOutcome.fileNotFound
      effectId).1.window.output_field = "/out"
    ∧ (runHandler s0 RunOutcome.fileNotFound
        effectId).1.window.output_field ≠ ""
    ∧ (runHandler s0 RunOutcome.fileNotFound
        effectId).1.window.inputs_field = ""
    ∧ (runHandler s0 RunOutcome.fileNotFound
        effectId).1.window.error_msg = filesNotFoundMsg
    ∧ (runHandler s0 RunOutcome.fileNotFound
        effectId).1.current_progress = 0
    ∧ (runHandler s0 RunOutcome.fileNotFound
        effectId).1.module.anyWrapped = false := by
  decide

end RunGui
